import Mathlib

/-!
Shallow embedding of the N2YO API access layer
(`src/api-client.ts`, class `N2YOApiClient`).

Numbers that the TypeScript source holds as `number` and only ever
interpolates into URL paths or compares for JS-falsiness are modelled as
`Int`; the upstream HTTP exchange is modelled as a function from the
attempt index (the source's `retryCount`) to the upstream's response for
that attempt.  `makeRequest` returns, besides the final outcome, the full
request URL per attempt and the backoff delay slept before each retry, so
that theorems can speak about attempt counts, URLs and delays.
-/

namespace N2YO

/-- Error codes from `@modelcontextprotocol/sdk` used by the source
(`ErrorCode.InvalidParams`, `ErrorCode.InvalidRequest`,
`ErrorCode.InternalError`). -/
inductive ErrorCode where
  | InvalidParams
  | InvalidRequest
  | InternalError
  deriving DecidableEq, Repr

/-- `McpError` as thrown by the source: a code plus a message string. -/
structure McpError where
  code : ErrorCode
  message : String
  deriving DecidableEq, Repr

/-- The `ENDPOINTS` constant of the source. -/
structure Endpoints where
  TLE : String
  POSITIONS : String
  VISUAL_PASSES : String
  RADIO_PASSES : String
  ABOVE : String

def ENDPOINTS : Endpoints where
  TLE := "/tle/"
  POSITIONS := "/positions/"
  VISUAL_PASSES := "/visualpasses/"
  RADIO_PASSES := "/radiopasses/"
  ABOVE := "/above/"

/-- The `ERROR_MESSAGES` constant of the source. -/
structure ErrorMessages where
  MISSING_API_KEY : String
  RATE_LIMIT_EXCEEDED : String
  INVALID_API_KEY : String
  API_ERROR : String
  NETWORK_ERROR : String

def ERROR_MESSAGES : ErrorMessages where
  MISSING_API_KEY := "N2YO API key is required"
  RATE_LIMIT_EXCEEDED := "Rate limit exceeded for N2YO API"
  INVALID_API_KEY := "Invalid N2YO API key"
  API_ERROR := "N2YO API error"
  NETWORK_ERROR := "Network error while connecting to N2YO API"

/-- What the upstream does on one HTTP attempt, as axios reports it:
a 2xx response carrying a parsed body, a non-2xx response carrying a
status and a body string (an `AxiosError` with `response` set), or a
connection-level failure (an `AxiosError` with no `response`). -/
inductive UpstreamResponse (α : Type) where
  | success : α → UpstreamResponse α
  | httpError : Nat → String → UpstreamResponse α
  | networkFailure : UpstreamResponse α
  deriving DecidableEq

/-- `this.retryDelay` of the source: initial retry delay in ms. -/
def retryDelay : Nat := 1000

/-- `this.maxRetries` of the source. -/
def maxRetries : Nat := 3

/-- Outcome of a `makeRequest` call: the request URL of every attempt in
order, the delays (ms) slept between attempts, and the final result. -/
structure CallOutcome (α : Type) where
  requests : List String
  delays : List Nat
  result : Except McpError α

/-- `makeRequest` of the source, at a given `retryCount`.  Each attempt
builds `fullEndpoint = endpoint + "/&apiKey=" + apiKey` and issues a GET;
on a 429 with `retryCount < maxRetries` it sleeps
`retryDelay * 2 ^ retryCount` ms and recurses with `retryCount + 1`; a
401 throws `InvalidRequest`/`INVALID_API_KEY`; any other non-2xx response
throws `InternalError` with the generic API-error message carrying status
and body; no response at all throws `InternalError`/`NETWORK_ERROR`.
The `params` argument is accepted and passed along exactly as in the
source, which never reads it. -/
def makeRequestAux {α : Type} (apiKey endpoint : String)
    (params : List (String × String))
    (upstream : Nat → UpstreamResponse α) (retryCount : Nat) :
    CallOutcome α :=
  let fullEndpoint := endpoint ++ "/&apiKey=" ++ apiKey
  match upstream retryCount with
  | .success body => ⟨[fullEndpoint], [], .ok body⟩
  | .httpError status body =>
    if h : status = 429 ∧ retryCount < maxRetries then
      let delay := retryDelay * 2 ^ retryCount
      let rest := makeRequestAux apiKey endpoint params upstream (retryCount + 1)
      ⟨fullEndpoint :: rest.requests, delay :: rest.delays, rest.result⟩
    else if status = 401 then
      ⟨[fullEndpoint], [],
        .error ⟨.InvalidRequest, ERROR_MESSAGES.INVALID_API_KEY⟩⟩
    else
      ⟨[fullEndpoint], [],
        .error ⟨.InternalError,
          ERROR_MESSAGES.API_ERROR ++ ": " ++ toString status ++ " - " ++ body⟩⟩
  | .networkFailure =>
    ⟨[fullEndpoint], [], .error ⟨.InternalError, ERROR_MESSAGES.NETWORK_ERROR⟩⟩
  termination_by maxRetries + 1 - retryCount
  decreasing_by omega

/-- `makeRequest` entered as the source's callers enter it:
`retryCount = 0`. -/
def makeRequest {α : Type} (apiKey endpoint : String)
    (params : List (String × String))
    (upstream : Nat → UpstreamResponse α) : CallOutcome α :=
  makeRequestAux apiKey endpoint params upstream 0

/-- `N2YOApiClient`'s own state after construction (the axios instance
is the transport modelled by `upstream` arguments). -/
structure N2YOApiClient where
  apiKey : String

/-- The constructor of `N2YOApiClient`: `if (!apiKey) throw
McpError(InvalidParams, MISSING_API_KEY)`.  For a string, JS falsiness
is exactly emptiness, so a missing or empty key is the empty string. -/
def N2YOApiClient.construct (apiKey : String) :
    Except McpError N2YOApiClient :=
  if apiKey = "" then
    .error ⟨.InvalidParams, ERROR_MESSAGES.MISSING_API_KEY⟩
  else
    .ok ⟨apiKey⟩

/-- JS `v || d` where `v : string | undefined`: the default replaces
both `undefined` and the empty string (the falsy string). -/
def jsOrString (v : Option String) (d : String) : String :=
  match v with
  | some s => if s = "" then d else s
  | none => d

/-- JS `v || d` where `v : number | undefined`: the default replaces
both `undefined` and `0` (the falsy number; NaN does not arise here). -/
def jsOrInt (v : Option Int) (d : Int) : Int :=
  match v with
  | some n => if n = 0 then d else n
  | none => d

/-- `SatellitePosition` of the source (floats carried as `Int`). -/
structure SatellitePosition where
  satid : Int
  satname : String
  satlatitude : Int
  satlongitude : Int
  sataltitude : Int
  azimuth : Int
  elevation : Int
  ra : Int
  dec : Int
  timestamp : Int
  eclipsed : Bool
  deriving DecidableEq

/-- `SatelliteTLE` of the source. -/
structure SatelliteTLE where
  satid : Int
  satname : String
  transactionscount : Int
  tle : String
  deriving DecidableEq

/-- `SatellitePass` of the source (floats carried as `Int`). -/
structure SatellitePass where
  satid : Int
  satname : String
  startAz : Int
  startAzCompass : String
  startEl : Int
  startUTC : Int
  maxAz : Int
  maxAzCompass : String
  maxEl : Int
  maxUTC : Int
  endAz : Int
  endAzCompass : String
  endEl : Int
  endUTC : Int
  mag : Int
  duration : Int
  deriving DecidableEq

/-- `SatelliteAbove` of the source (floats carried as `Int`). -/
structure SatelliteAbove where
  satid : Int
  satname : String
  intDesignator : String
  launchDate : String
  satlat : Int
  satlng : Int
  satalt : Int
  deriving DecidableEq

/-- `PositionParams` of the source: `observer_alt` and `seconds` are
optional (`undefined` when the caller omits them). -/
structure PositionParams where
  noradId : Int
  observer_lat : Int
  observer_lng : Int
  observer_alt : Option Int
  seconds : Option Int

/-- `VisualPassesParams` of the source. -/
structure VisualPassesParams where
  noradId : Int
  observer_lat : Int
  observer_lng : Int
  observer_alt : Option Int
  days : Option Int
  min_visibility : Option Int

/-- `RadioPassesParams` of the source. -/
structure RadioPassesParams where
  noradId : Int
  observer_lat : Int
  observer_lng : Int
  observer_alt : Option Int
  days : Option Int
  min_elevation : Option Int

/-- `AboveParams` of the source. -/
structure AboveParams where
  observer_lat : Int
  observer_lng : Int
  observer_alt : Option Int
  search_radius : Option Int
  category_id : Option Int

/-- The `info` object of the `/tle` envelope, as far as `getTLE` reads
it: `info?.satname` and `info?.transactionscount`, each possibly absent. -/
structure TleInfo where
  satname : Option String
  transactionscount : Option Int
  deriving DecidableEq

/-- The upstream `/tle` envelope `{ info: any, tle: string }`; `info`
itself may be absent (`info?.` optional chaining in the source). -/
structure TleEnvelope where
  info : Option TleInfo
  tle : String
  deriving DecidableEq

/-- The upstream `/positions` envelope; the `positions` field may be
absent (the source writes `response.positions || []`). `info` is never
read by the adapter. -/
structure PositionsEnvelope where
  info : Option String
  positions : Option (List SatellitePosition)
  deriving DecidableEq

/-- The upstream passes envelope (visual and radio); the `passes` field
may be absent. -/
structure PassesEnvelope where
  info : Option String
  passes : Option (List SatellitePass)
  deriving DecidableEq

/-- The upstream `/above` envelope; the `above` field may be absent. -/
structure AboveEnvelope where
  info : Option String
  above : Option (List SatelliteAbove)
  deriving DecidableEq

/-- The endpoint string built by `getTLE`:
```${ENDPOINTS.TLE}/${noradId}`` `. -/
def tleEndpoint (noradId : Int) : String :=
  ENDPOINTS.TLE ++ "/" ++ toString noradId

/-- `getTLE` of the source: one `makeRequest`, then the record is built
with the caller's `noradId` as `satid`, `response.info?.satname ||
`Satellite ${noradId}`` and `response.info?.transactionscount || 0`. -/
def getTLE (apiKey : String) (noradId : Int)
    (upstream : Nat → UpstreamResponse TleEnvelope) :
    CallOutcome SatelliteTLE :=
  let outcome := makeRequest apiKey (tleEndpoint noradId) [] upstream
  { outcome with
    result := outcome.result.map (fun response =>
      { satid := noradId
        satname := jsOrString (response.info.bind TleInfo.satname)
          ("Satellite " ++ toString noradId)
        transactionscount :=
          jsOrInt (response.info.bind TleInfo.transactionscount) 0
        tle := response.tle }) }

/-- The endpoint string built by `getPositions`:
``${ENDPOINTS.POSITIONS}/${noradId}/${observer_lat}/${observer_lng}/${observer_alt}/${seconds}``
after destructuring with defaults `observer_alt = 0, seconds = 60`
(a destructuring default applies exactly when the field is `undefined`). -/
def positionsEndpoint (params : PositionParams) : String :=
  ENDPOINTS.POSITIONS ++ "/" ++ toString params.noradId
    ++ "/" ++ toString params.observer_lat
    ++ "/" ++ toString params.observer_lng
    ++ "/" ++ toString (params.observer_alt.getD 0)
    ++ "/" ++ toString (params.seconds.getD 60)

/-- `getPositions` of the source: one `makeRequest`, then
`response.positions || []` (an absent list yields `[]`; a present list
— even empty, arrays are truthy — is returned as is). -/
def getPositions (apiKey : String) (params : PositionParams)
    (upstream : Nat → UpstreamResponse PositionsEnvelope) :
    CallOutcome (List SatellitePosition) :=
  let outcome := makeRequest apiKey (positionsEndpoint params) [] upstream
  { outcome with
    result := outcome.result.map (fun response => response.positions.getD []) }

/-- The endpoint string built by `getVisualPasses`, with destructuring
defaults `observer_alt = 0, days = 7, min_visibility = 10`. -/
def visualPassesEndpoint (params : VisualPassesParams) : String :=
  ENDPOINTS.VISUAL_PASSES ++ "/" ++ toString params.noradId
    ++ "/" ++ toString params.observer_lat
    ++ "/" ++ toString params.observer_lng
    ++ "/" ++ toString (params.observer_alt.getD 0)
    ++ "/" ++ toString (params.days.getD 7)
    ++ "/" ++ toString (params.min_visibility.getD 10)

/-- `getVisualPasses` of the source: one `makeRequest`, then
`response.passes || []`. -/
def getVisualPasses (apiKey : String) (params : VisualPassesParams)
    (upstream : Nat → UpstreamResponse PassesEnvelope) :
    CallOutcome (List SatellitePass) :=
  let outcome := makeRequest apiKey (visualPassesEndpoint params) [] upstream
  { outcome with
    result := outcome.result.map (fun response => response.passes.getD []) }

/-- The endpoint string built by `getRadioPasses`, with destructuring
defaults `observer_alt = 0, days = 7, min_elevation = 0`. -/
def radioPassesEndpoint (params : RadioPassesParams) : String :=
  ENDPOINTS.RADIO_PASSES ++ "/" ++ toString params.noradId
    ++ "/" ++ toString params.observer_lat
    ++ "/" ++ toString params.observer_lng
    ++ "/" ++ toString (params.observer_alt.getD 0)
    ++ "/" ++ toString (params.days.getD 7)
    ++ "/" ++ toString (params.min_elevation.getD 0)

/-- `getRadioPasses` of the source: one `makeRequest`, then
`response.passes || []`. -/
def getRadioPasses (apiKey : String) (params : RadioPassesParams)
    (upstream : Nat → UpstreamResponse PassesEnvelope) :
    CallOutcome (List SatellitePass) :=
  let outcome := makeRequest apiKey (radioPassesEndpoint params) [] upstream
  { outcome with
    result := outcome.result.map (fun response => response.passes.getD []) }

/-- The endpoint string built by `getAbove`, with destructuring defaults
`observer_alt = 0, search_radius = 90, category_id = 0`. -/
def aboveEndpoint (params : AboveParams) : String :=
  ENDPOINTS.ABOVE ++ "/" ++ toString params.observer_lat
    ++ "/" ++ toString params.observer_lng
    ++ "/" ++ toString (params.observer_alt.getD 0)
    ++ "/" ++ toString (params.search_radius.getD 90)
    ++ "/" ++ toString (params.category_id.getD 0)

/-- `getAbove` of the source: one `makeRequest`, then
`response.above || []`. -/
def getAbove (apiKey : String) (params : AboveParams)
    (upstream : Nat → UpstreamResponse AboveEnvelope) :
    CallOutcome (List SatelliteAbove) :=
  let outcome := makeRequest apiKey (aboveEndpoint params) [] upstream
  { outcome with
    result := outcome.result.map (fun response => response.above.getD []) }

/-- TS `s.toLowerCase()` (ASCII case folding, per-character — the same
folding `Char.toLower` performs). -/
def jsToLower (s : String) : String := ⟨s.data.map Char.toLower⟩

/-- TS `String.prototype.includes`, on the underlying character lists:
`pat` occurs as a contiguous substring of `s`. -/
def listIncludes (s pat : List Char) : Bool :=
  pat.isPrefixOf s ||
    match s with
    | [] => false
    | _ :: rest => listIncludes rest pat

/-- TS `s.includes(pat)`. -/
def jsIncludes (s pat : String) : Bool :=
  listIncludes s.data pat.data

/-- The filter predicate of `searchSatellites`:
`sat.satname.toLowerCase().includes(lowerQuery) ||
 sat.intDesignator.toLowerCase().includes(lowerQuery)`. -/
def matchesQuery (lowerQuery : String) (sat : SatelliteAbove) : Bool :=
  jsIncludes (jsToLower sat.satname) lowerQuery ||
    jsIncludes (jsToLower sat.intDesignator) lowerQuery

/-- `searchSatellites` of the source: builds
`{observer_lat: 0, observer_lng: 0, search_radius: 90, category_id}`
(so `observer_alt` is left absent; the parameter default
`category_id = 0` applies when the argument is `undefined`), calls
`getAbove` once, and — when the query string is truthy, i.e. non-empty —
filters by case-insensitive substring match against the name or the
international designator. -/
def searchSatellites (apiKey : String) (searchQuery : String)
    (category_id : Option Int)
    (upstream : Nat → UpstreamResponse AboveEnvelope) :
    CallOutcome (List SatelliteAbove) :=
  let cid := category_id.getD 0
  let params : AboveParams :=
    { observer_lat := 0
      observer_lng := 0
      observer_alt := none
      search_radius := some 90
      category_id := some cid }
  let outcome := getAbove apiKey params upstream
  { outcome with
    result := outcome.result.map (fun satellites =>
      if searchQuery ≠ "" then
        let lowerQuery := jsToLower searchQuery
        satellites.filter (matchesQuery lowerQuery)
      else
        satellites) }

/-! ### One-step characterizations of `makeRequestAux` -/

/-- A 2xx response ends the call at once with the parsed body. -/
theorem makeRequestAux_success {α : Type} {apiKey endpoint : String}
    {params : List (String × String)} {upstream : Nat → UpstreamResponse α}
    {rc : Nat} {body : α} (h : upstream rc = .success body) :
    makeRequestAux apiKey endpoint params upstream rc
      = ⟨[endpoint ++ "/&apiKey=" ++ apiKey], [], .ok body⟩ := by
  rw [makeRequestAux.eq_def]
  simp [h]

/-- A 429 with retry budget left sleeps `retryDelay * 2 ^ rc` and
recurses at `rc + 1`. -/
theorem makeRequestAux_retry {α : Type} {apiKey endpoint : String}
    {params : List (String × String)} {upstream : Nat → UpstreamResponse α}
    {rc : Nat} {body : String} (h : upstream rc = .httpError 429 body)
    (hrc : rc < maxRetries) :
    makeRequestAux apiKey endpoint params upstream rc
      = ⟨(endpoint ++ "/&apiKey=" ++ apiKey)
            :: (makeRequestAux apiKey endpoint params upstream (rc + 1)).requests,
          retryDelay * 2 ^ rc
            :: (makeRequestAux apiKey endpoint params upstream (rc + 1)).delays,
          (makeRequestAux apiKey endpoint params upstream (rc + 1)).result⟩ := by
  rw [makeRequestAux.eq_def]
  simp [h, hrc]

/-- A 401 fails at once with the invalid-credential error. -/
theorem makeRequestAux_401 {α : Type} {apiKey endpoint : String}
    {params : List (String × String)} {upstream : Nat → UpstreamResponse α}
    {rc : Nat} {body : String} (h : upstream rc = .httpError 401 body) :
    makeRequestAux apiKey endpoint params upstream rc
      = ⟨[endpoint ++ "/&apiKey=" ++ apiKey], [],
          .error ⟨.InvalidRequest, ERROR_MESSAGES.INVALID_API_KEY⟩⟩ := by
  rw [makeRequestAux.eq_def]
  simp [h]

/-- Any other non-2xx response — including a 429 with the retry budget
exhausted — fails at once with the generic API error carrying the
status and body. -/
theorem makeRequestAux_other {α : Type} {apiKey endpoint : String}
    {params : List (String × String)} {upstream : Nat → UpstreamResponse α}
    {rc : Nat} {status : Nat} {body : String}
    (h : upstream rc = .httpError status body)
    (hcond : ¬(status = 429 ∧ rc < maxRetries)) (h401 : status ≠ 401) :
    makeRequestAux apiKey endpoint params upstream rc
      = ⟨[endpoint ++ "/&apiKey=" ++ apiKey], [],
          .error ⟨.InternalError,
            ERROR_MESSAGES.API_ERROR ++ ": " ++ toString status ++ " - " ++ body⟩⟩ := by
  rw [makeRequestAux.eq_def]
  simp only [h]
  rw [dif_neg hcond, if_neg h401]

/-- A connection-level failure fails at once with the network error. -/
theorem makeRequestAux_network {α : Type} {apiKey endpoint : String}
    {params : List (String × String)} {upstream : Nat → UpstreamResponse α}
    {rc : Nat} (h : upstream rc = .networkFailure) :
    makeRequestAux apiKey endpoint params upstream rc
      = ⟨[endpoint ++ "/&apiKey=" ++ apiKey], [],
          .error ⟨.InternalError, ERROR_MESSAGES.NETWORK_ERROR⟩⟩ := by
  rw [makeRequestAux.eq_def]
  simp [h]

/-! ### Structural invariants of the retry loop -/

/-- Every attempt's request URL is the endpoint with the credential
marker appended — whatever the upstream does and however many retries
happen. -/
theorem makeRequestAux_requests_eq {α : Type} (apiKey endpoint : String)
    (params : List (String × String)) (upstream : Nat → UpstreamResponse α)
    (rc : Nat) :
    ∀ url ∈ (makeRequestAux apiKey endpoint params upstream rc).requests,
      url = endpoint ++ "/&apiKey=" ++ apiKey := by
  induction rc using makeRequestAux.induct apiKey endpoint params upstream with
  | case1 x body h => rw [makeRequestAux_success h]; simp
  | case2 x status body h hcond ih =>
      obtain ⟨rfl, hlt⟩ := hcond
      rw [makeRequestAux_retry h hlt]
      simp only [List.mem_cons]
      rintro url (rfl | hm)
      · rfl
      · exact ih url hm
  | case3 x body h hcond => rw [makeRequestAux_401 h]; simp
  | case4 x status body h hcond hne => rw [makeRequestAux_other h hcond hne]; simp
  | case5 x h => rw [makeRequestAux_network h]; simp

/-- At least one request is always sent. -/
theorem makeRequestAux_requests_ne_nil {α : Type} (apiKey endpoint : String)
    (params : List (String × String)) (upstream : Nat → UpstreamResponse α)
    (rc : Nat) :
    (makeRequestAux apiKey endpoint params upstream rc).requests ≠ [] := by
  rcases hu : upstream rc with body | ⟨status, body⟩ | _
  · rw [makeRequestAux_success hu]; simp
  · by_cases hc : status = 429 ∧ rc < maxRetries
    · obtain ⟨rfl, hlt⟩ := hc
      rw [makeRequestAux_retry hu hlt]; simp
    · by_cases h4 : status = 401
      · subst h4; rw [makeRequestAux_401 hu]; simp
      · rw [makeRequestAux_other hu hc h4]; simp
  · rw [makeRequestAux_network hu]; simp

/-- Every error a call can end in carries `InvalidRequest` or
`InternalError`; the constructor-time code `InvalidParams` never
escapes a call. -/
theorem makeRequestAux_error_code {α : Type} (apiKey endpoint : String)
    (params : List (String × String)) (upstream : Nat → UpstreamResponse α)
    (rc : Nat) :
    ∀ e, (makeRequestAux apiKey endpoint params upstream rc).result = .error e →
      e.code = ErrorCode.InvalidRequest ∨ e.code = ErrorCode.InternalError := by
  induction rc using makeRequestAux.induct apiKey endpoint params upstream with
  | case1 x body h => rw [makeRequestAux_success h]; simp
  | case2 x status body h hcond ih =>
      obtain ⟨rfl, hlt⟩ := hcond
      rw [makeRequestAux_retry h hlt]
      exact ih
  | case3 x body h hcond =>
      rw [makeRequestAux_401 h]
      rintro e he
      simp only [Except.error.injEq] at he
      subst he; left; rfl
  | case4 x status body h hcond hne =>
      rw [makeRequestAux_other h hcond hne]
      rintro e he
      simp only [Except.error.injEq] at he
      subst he; right; rfl
  | case5 x h =>
      rw [makeRequestAux_network h]
      rintro e he
      simp only [Except.error.injEq] at he
      subst he; right; rfl

/-- The `params` dictionary is dead: two calls differing only in it are
identical in every observable (request URLs, delays, result). -/
theorem makeRequestAux_params_irrel {α : Type} (apiKey endpoint : String)
    (p1 p2 : List (String × String)) (upstream : Nat → UpstreamResponse α)
    (rc : Nat) :
    makeRequestAux apiKey endpoint p1 upstream rc
      = makeRequestAux apiKey endpoint p2 upstream rc := by
  induction rc using makeRequestAux.induct apiKey endpoint p1 upstream with
  | case1 x body h => rw [makeRequestAux_success h, makeRequestAux_success h]
  | case2 x status body h hcond ih =>
      obtain ⟨rfl, hlt⟩ := hcond
      rw [makeRequestAux_retry h hlt, makeRequestAux_retry h hlt, ih]
  | case3 x body h hcond => rw [makeRequestAux_401 h, makeRequestAux_401 h]
  | case4 x status body h hcond hne =>
      rw [makeRequestAux_other h hcond hne, makeRequestAux_other h hcond hne]
  | case5 x h => rw [makeRequestAux_network h, makeRequestAux_network h]

/-- When the upstream answers 429 on every attempt, the call makes
exactly 4 attempts, sleeps 1000/2000/4000 ms, and then throws the
generic API error (`InternalError`) carrying status 429 — the
`RATE_LIMIT_EXCEEDED` message declared in `ERROR_MESSAGES` is never
used by `makeRequest`. -/
theorem makeRequest_all429 {α : Type} (apiKey endpoint body : String)
    (params : List (String × String)) (upstream : Nat → UpstreamResponse α)
    (h : ∀ n, upstream n = .httpError 429 body) :
    makeRequest apiKey endpoint params upstream
      = ⟨List.replicate 4 (endpoint ++ "/&apiKey=" ++ apiKey),
          [1000, 2000, 4000],
          .error ⟨.InternalError,
            ERROR_MESSAGES.API_ERROR ++ ": " ++ toString 429 ++ " - " ++ body⟩⟩ := by
  simp [makeRequest, makeRequestAux, h, maxRetries, retryDelay]

/-- The upstream used for the C1 failing input: 429 on every attempt. -/
def always429 : Nat → UpstreamResponse TleEnvelope :=
  fun _ => .httpError 429 "rate limited"

/-- C1: on an upstream that always answers 429, the call does make
exactly 4 attempts (1 initial + 3 retries), but it does NOT fail with a
distinct rate-limit error kind: the thrown error is the generic
API-error branch (`InternalError`, message `"N2YO API error: 429 -
..."`), the same shape as any other non-success status; the declared
`RATE_LIMIT_EXCEEDED` message is dead code. -/
theorem rateLimit_exhaustion_yields_generic_error :
    (makeRequest "KEY" (tleEndpoint 25544) [] always429).requests.length = 4
    ∧ (makeRequest "KEY" (tleEndpoint 25544) [] always429).result
        = .error ⟨.InternalError, "N2YO API error: 429 - rate limited"⟩
    ∧ (("N2YO API error: 429 - rate limited" : String)
          == ERROR_MESSAGES.RATE_LIMIT_EXCEEDED) = false := by
  have h := makeRequest_all429 "KEY" (tleEndpoint 25544) "rate limited" []
    always429 (fun _ => rfl)
  rw [h]
  refine ⟨by simp, ?_, by decide⟩
  exact congrArg Except.error (by decide)

/-- C2: when the upstream answers 429 on attempts 1–3 and succeeds on
attempt 4, the core sleeps exactly 1000, 2000, 4000 ms between attempts
(`retryDelay * 2 ^ k` for k = 0, 1, 2), sends 4 requests, and returns
the attempt-4 payload. -/
theorem backoff_schedule_and_final_payload {α : Type}
    (apiKey endpoint body : String) (params : List (String × String))
    (payload : α) (upstream : Nat → UpstreamResponse α)
    (h429 : ∀ n, n < 3 → upstream n = .httpError 429 body)
    (hok : upstream 3 = .success payload) :
    makeRequest apiKey endpoint params upstream
      = ⟨List.replicate 4 (endpoint ++ "/&apiKey=" ++ apiKey),
          [1000, 2000, 4000], .ok payload⟩ := by
  have e0 := @makeRequestAux_retry _ apiKey endpoint params upstream 0 body
    (h429 0 (by norm_num)) (by decide)
  have e1 := @makeRequestAux_retry _ apiKey endpoint params upstream 1 body
    (h429 1 (by norm_num)) (by decide)
  have e2 := @makeRequestAux_retry _ apiKey endpoint params upstream 2 body
    (h429 2 (by norm_num)) (by decide)
  have e3 := @makeRequestAux_success _ apiKey endpoint params upstream 3 payload hok
  rw [makeRequest, e0, e1, e2, e3]
  simp [retryDelay, List.replicate]

/-- Witness for C2 at a concrete mocked upstream. -/
theorem backoff_schedule_and_final_payload_witness :
    makeRequest "KEY" "/positions//25544/40/-75/0/60" []
        (fun rc => if rc < 3 then UpstreamResponse.httpError 429 "busy"
          else .success (42 : Nat))
      = ⟨List.replicate 4 ("/positions//25544/40/-75/0/60" ++ "/&apiKey=" ++ "KEY"),
          [1000, 2000, 4000], .ok 42⟩ :=
  backoff_schedule_and_final_payload "KEY" "/positions//25544/40/-75/0/60"
    "busy" [] 42 _ (fun n hn => by simp [hn]) (by simp)

/-- C5: a 401 on the first attempt fails immediately with the
invalid-credential error (`InvalidRequest`/`INVALID_API_KEY`); exactly
one request is sent and no delay is slept. -/
theorem auth_rejected_fails_immediately {α : Type}
    (apiKey endpoint body : String) (params : List (String × String))
    (upstream : Nat → UpstreamResponse α)
    (h : upstream 0 = .httpError 401 body) :
    makeRequest apiKey endpoint params upstream
      = ⟨[endpoint ++ "/&apiKey=" ++ apiKey], [],
          .error ⟨.InvalidRequest, ERROR_MESSAGES.INVALID_API_KEY⟩⟩ := by
  rw [makeRequest]
  exact makeRequestAux_401 h

/-- Witness for C5 at a concrete mocked upstream. -/
theorem auth_rejected_fails_immediately_witness :
    makeRequest "BADKEY" (tleEndpoint 25544) []
        (fun _ => UpstreamResponse.httpError (α := TleEnvelope) 401 "Unauthorized")
      = ⟨[tleEndpoint 25544 ++ "/&apiKey=" ++ "BADKEY"], [],
          .error ⟨.InvalidRequest, ERROR_MESSAGES.INVALID_API_KEY⟩⟩ :=
  auth_rejected_fails_immediately "BADKEY" (tleEndpoint 25544) "Unauthorized" [] _ rfl

/-- C3: every optional numeric parameter's documented default is
embedded in the request path exactly when the caller omits it (the path
of an omitted-parameter call is the path of a call supplying the
default), and an explicitly supplied value — an explicit zero included,
since the quantifiers below range over it — appears verbatim in the
path; with the spec's concrete examples for `getPositions`. -/
theorem adapter_defaults_only_when_omitted :
    (∀ id lat lng : Int, positionsEndpoint ⟨id, lat, lng, none, none⟩
        = positionsEndpoint ⟨id, lat, lng, some 0, some 60⟩)
    ∧ (∀ id lat lng alt secs : Int,
        positionsEndpoint ⟨id, lat, lng, some alt, some secs⟩
          = ENDPOINTS.POSITIONS ++ "/" ++ toString id ++ "/" ++ toString lat
              ++ "/" ++ toString lng ++ "/" ++ toString alt ++ "/" ++ toString secs)
    ∧ (∀ id lat lng : Int, visualPassesEndpoint ⟨id, lat, lng, none, none, none⟩
        = visualPassesEndpoint ⟨id, lat, lng, some 0, some 7, some 10⟩)
    ∧ (∀ id lat lng alt days mv : Int,
        visualPassesEndpoint ⟨id, lat, lng, some alt, some days, some mv⟩
          = ENDPOINTS.VISUAL_PASSES ++ "/" ++ toString id ++ "/" ++ toString lat
              ++ "/" ++ toString lng ++ "/" ++ toString alt ++ "/" ++ toString days
              ++ "/" ++ toString mv)
    ∧ (∀ id lat lng : Int, radioPassesEndpoint ⟨id, lat, lng, none, none, none⟩
        = radioPassesEndpoint ⟨id, lat, lng, some 0, some 7, some 0⟩)
    ∧ (∀ id lat lng alt days minEl : Int,
        radioPassesEndpoint ⟨id, lat, lng, some alt, some days, some minEl⟩
          = ENDPOINTS.RADIO_PASSES ++ "/" ++ toString id ++ "/" ++ toString lat
              ++ "/" ++ toString lng ++ "/" ++ toString alt ++ "/" ++ toString days
              ++ "/" ++ toString minEl)
    ∧ (∀ lat lng : Int, aboveEndpoint ⟨lat, lng, none, none, none⟩
        = aboveEndpoint ⟨lat, lng, some 0, some 90, some 0⟩)
    ∧ (∀ lat lng alt radius cat : Int,
        aboveEndpoint ⟨lat, lng, some alt, some radius, some cat⟩
          = ENDPOINTS.ABOVE ++ "/" ++ toString lat ++ "/" ++ toString lng
              ++ "/" ++ toString alt ++ "/" ++ toString radius ++ "/" ++ toString cat)
    ∧ positionsEndpoint ⟨25544, 40, -75, none, none⟩ = "/positions//25544/40/-75/0/60"
    ∧ positionsEndpoint ⟨25544, 40, -75, some 5000, some 120⟩
        = "/positions//25544/40/-75/5000/120"
    ∧ positionsEndpoint ⟨25544, 40, -75, some 0, some 0⟩
        = "/positions//25544/40/-75/0/0" := by
  refine ⟨fun _ _ _ => rfl, fun _ _ _ _ _ => rfl, fun _ _ _ => rfl,
    fun _ _ _ _ _ _ => rfl, fun _ _ _ => rfl, fun _ _ _ _ _ _ => rfl,
    fun _ _ => rfl, fun _ _ _ _ _ => rfl, by decide, by decide, by decide⟩

/-- Number of positions at which `pat` occurs as a contiguous substring. -/
def countOccs (pat : List Char) : List Char → Nat
  | [] => 0
  | c :: rest => (if pat.isPrefixOf (c :: rest) then 1 else 0) + countOccs pat rest

/-- The upstream used for the concrete retried call of C4. -/
def always429positions : Nat → UpstreamResponse PositionsEnvelope :=
  fun _ => .httpError 429 "busy"

/-- C4: every individual attempt's request URL is exactly the endpoint
with `"/&apiKey=" ++ apiKey` appended — never duplicated, never
omitted, whatever the upstream's response sequence and however many
retries happen; at least one attempt is always made; and on a concrete
fully-retried adapter call every one of the 4 attempt URLs carries the
credential marker exactly once. -/
theorem credential_appended_once_per_attempt {α : Type}
    (apiKey endpoint : String) (params : List (String × String))
    (upstream : Nat → UpstreamResponse α) :
    1 ≤ (makeRequest apiKey endpoint params upstream).requests.length
    ∧ ((makeRequest apiKey endpoint params upstream).requests.all
        (fun url => url == endpoint ++ "/&apiKey=" ++ apiKey)) = true
    ∧ ((makeRequest "MYKEY" (positionsEndpoint ⟨25544, 40, -75, none, none⟩) []
          always429positions).requests.all
        (fun url => countOccs "/&apiKey=".data url.data == 1)) = true := by
  refine ⟨?_, ?_, ?_⟩
  · have h := makeRequestAux_requests_ne_nil apiKey endpoint params upstream 0
    rw [makeRequest]
    exact List.length_pos.mpr h
  · have h := makeRequestAux_requests_eq apiKey endpoint params upstream 0
    rw [makeRequest]
    simp only [List.all_eq_true, beq_iff_eq]
    exact h
  · have h := makeRequest_all429 "MYKEY" (positionsEndpoint ⟨25544, 40, -75, none, none⟩)
      "busy" [] always429positions (fun _ => rfl)
    rw [h]
    decide

/-- C9: `makeRequest` never reads its query-parameters argument: two
calls that differ only in the params dictionary produce identical
request URLs, delays and results, for every endpoint, credential and
upstream behaviour. -/
theorem makeRequest_ignores_params {α : Type} (apiKey endpoint : String)
    (p1 p2 : List (String × String)) (upstream : Nat → UpstreamResponse α) :
    makeRequest apiKey endpoint p1 upstream
      = makeRequest apiKey endpoint p2 upstream := by
  rw [makeRequest, makeRequest]
  exact makeRequestAux_params_irrel apiKey endpoint p1 p2 upstream 0

/-- C6: for every query and category, `searchSatellites` issues exactly
one `getAbove` call — its single-attempt request embeds observer lat 0,
lng 0, alt 0, radius 90 and the given category (defaulted to 0 when the
argument is absent) — and returns the `getAbove` list unfiltered when
the query is empty, else exactly its elements whose name or
international designator contains the query case-insensitively, in
order (a `List.filter`). -/
theorem searchSatellites_one_call_and_filter (apiKey searchQuery : String)
    (category_id : Option Int) (upstream : Nat → UpstreamResponse AboveEnvelope)
    (env : AboveEnvelope) (h : upstream 0 = .success env) :
    (searchSatellites apiKey searchQuery category_id upstream).requests
      = ["/above//0/0/0/90/" ++ toString (category_id.getD 0) ++ "/&apiKey=" ++ apiKey]
    ∧ (searchSatellites apiKey searchQuery category_id upstream).result
        = .ok (if searchQuery = "" then env.above.getD []
            else (env.above.getD []).filter (matchesQuery (jsToLower searchQuery))) := by
  have hm := @makeRequestAux_success _ apiKey
    (aboveEndpoint ⟨0, 0, none, some 90, some (category_id.getD 0)⟩)
    [] upstream 0 env h
  constructor
  · show (searchSatellites apiKey searchQuery category_id upstream).requests = _
    simp only [searchSatellites, getAbove, makeRequest, hm]
    rfl
  · simp only [searchSatellites, getAbove, makeRequest, hm]
    by_cases hq : searchQuery = ""
    · simp [hq, Except.map]
    · simp [hq, Except.map]

/-- The ISS record of the spec's search example. -/
def issRecord : SatelliteAbove :=
  ⟨25544, "ISS (ZARYA)", "1998-067A", "1998-11-20", 0, 0, 420⟩

/-- The NOAA 19 record of the spec's search example. -/
def noaaRecord : SatelliteAbove :=
  ⟨33591, "NOAA 19", "2009-005A", "2009-02-06", 0, 0, 870⟩

/-- Mocked `getAbove` envelope holding the two example records. -/
def mockAboveEnv : AboveEnvelope := ⟨none, some [issRecord, noaaRecord]⟩

/-- Mocked upstream answering the example envelope at once. -/
def mockAboveUpstream : Nat → UpstreamResponse AboveEnvelope :=
  fun _ => .success mockAboveEnv

/-- Witness for C6: `searchSatellites("ISS", undefined)` keeps only the
ISS record; `searchSatellites("", 29)` returns the unfiltered list and
requests category 29. -/
theorem searchSatellites_one_call_and_filter_witness :
    (searchSatellites "KEY" "ISS" none mockAboveUpstream).result = .ok [issRecord]
    ∧ (searchSatellites "KEY" "" (some 29) mockAboveUpstream).result
        = .ok [issRecord, noaaRecord]
    ∧ (searchSatellites "KEY" "" (some 29) mockAboveUpstream).requests
        = ["/above//0/0/0/90/29/&apiKey=KEY"] := by
  have h1 := searchSatellites_one_call_and_filter "KEY" "ISS" none
    mockAboveUpstream mockAboveEnv rfl
  have h2 := searchSatellites_one_call_and_filter "KEY" "" (some 29)
    mockAboveUpstream mockAboveEnv rfl
  refine ⟨?_, ?_, ?_⟩
  · rw [h1.2]
    exact congrArg Except.ok (by decide)
  · rw [h2.2]
    exact congrArg Except.ok (by decide)
  · rw [h2.1]
    rfl

/-- C7: whenever the transport returns a success envelope whose list
field (`positions`, `passes`, `above`) is absent or present-but-empty,
each list adapter returns `ok []` — an empty sequence, never an error. -/
theorem absent_list_field_yields_empty :
    (∀ (apiKey : String) (p : PositionParams)
        (upstream : Nat → UpstreamResponse PositionsEnvelope)
        (env : PositionsEnvelope),
      (makeRequest apiKey (positionsEndpoint p) [] upstream).result = .ok env →
      (env.positions = none ∨ env.positions = some []) →
      (getPositions apiKey p upstream).result = .ok [])
    ∧ (∀ (apiKey : String) (p : VisualPassesParams)
        (upstream : Nat → UpstreamResponse PassesEnvelope)
        (env : PassesEnvelope),
      (makeRequest apiKey (visualPassesEndpoint p) [] upstream).result = .ok env →
      (env.passes = none ∨ env.passes = some []) →
      (getVisualPasses apiKey p upstream).result = .ok [])
    ∧ (∀ (apiKey : String) (p : RadioPassesParams)
        (upstream : Nat → UpstreamResponse PassesEnvelope)
        (env : PassesEnvelope),
      (makeRequest apiKey (radioPassesEndpoint p) [] upstream).result = .ok env →
      (env.passes = none ∨ env.passes = some []) →
      (getRadioPasses apiKey p upstream).result = .ok [])
    ∧ (∀ (apiKey : String) (p : AboveParams)
        (upstream : Nat → UpstreamResponse AboveEnvelope)
        (env : AboveEnvelope),
      (makeRequest apiKey (aboveEndpoint p) [] upstream).result = .ok env →
      (env.above = none ∨ env.above = some []) →
      (getAbove apiKey p upstream).result = .ok []) := by
  refine ⟨?_, ?_, ?_, ?_⟩ <;>
    (intro apiKey p upstream env h hempty
     first
      | (simp only [getPositions, h]
         rcases hempty with he | he <;> simp [he, Except.map])
      | (simp only [getVisualPasses, h]
         rcases hempty with he | he <;> simp [he, Except.map])
      | (simp only [getRadioPasses, h]
         rcases hempty with he | he <;> simp [he, Except.map])
      | (simp only [getAbove, h]
         rcases hempty with he | he <;> simp [he, Except.map]))

/-- Success upstream whose `/positions` envelope lacks the list field. -/
def emptyPositionsUpstream : Nat → UpstreamResponse PositionsEnvelope :=
  fun _ => .success ⟨none, none⟩

/-- Success upstream whose passes envelope lacks the list field. -/
def emptyPassesUpstream : Nat → UpstreamResponse PassesEnvelope :=
  fun _ => .success ⟨none, none⟩

/-- Success upstream whose `/above` envelope lacks the list field. -/
def emptyAboveUpstream : Nat → UpstreamResponse AboveEnvelope :=
  fun _ => .success ⟨none, none⟩

/-- Witness for C7: all four list adapters return `ok []` on envelopes
with the list field absent. -/
theorem absent_list_field_yields_empty_witness :
    (getPositions "K" ⟨25544, 40, -75, none, none⟩ emptyPositionsUpstream).result
        = .ok []
    ∧ (getVisualPasses "K" ⟨25544, 40, -75, none, none, none⟩
          emptyPassesUpstream).result = .ok []
    ∧ (getRadioPasses "K" ⟨25544, 40, -75, none, none, none⟩
          emptyPassesUpstream).result = .ok []
    ∧ (getAbove "K" ⟨40, -75, none, none, none⟩ emptyAboveUpstream).result
        = .ok [] := by
  refine ⟨absent_list_field_yields_empty.1 "K" _ _ ⟨none, none⟩ ?_ (Or.inl rfl),
    absent_list_field_yields_empty.2.1 "K" _ _ ⟨none, none⟩ ?_ (Or.inl rfl),
    absent_list_field_yields_empty.2.2.1 "K" _ _ ⟨none, none⟩ ?_ (Or.inl rfl),
    absent_list_field_yields_empty.2.2.2 "K" _ _ ⟨none, none⟩ ?_ (Or.inl rfl)⟩
  · rw [makeRequest, makeRequestAux_success
      (show emptyPositionsUpstream 0 = UpstreamResponse.success ⟨none, none⟩ from rfl)]
  · rw [makeRequest, makeRequestAux_success
      (show emptyPassesUpstream 0 = UpstreamResponse.success ⟨none, none⟩ from rfl)]
  · rw [makeRequest, makeRequestAux_success
      (show emptyPassesUpstream 0 = UpstreamResponse.success ⟨none, none⟩ from rfl)]
  · rw [makeRequest, makeRequestAux_success
      (show emptyAboveUpstream 0 = UpstreamResponse.success ⟨none, none⟩ from rfl)]

/-- C8: construction with an empty (JS-falsy, i.e. missing) credential
fails with the configuration error (`InvalidParams`/`MISSING_API_KEY`)
— the constructor takes no transport, so no request can be involved —
while any non-empty credential constructs successfully; and no
per-call use can ever produce that configuration error. -/
theorem construct_requires_credential :
    N2YOApiClient.construct ""
        = .error ⟨.InvalidParams, ERROR_MESSAGES.MISSING_API_KEY⟩
    ∧ (∀ key : String, key ≠ "" → N2YOApiClient.construct key = .ok ⟨key⟩)
    ∧ (∀ (α : Type) (apiKey endpoint : String) (params : List (String × String))
        (upstream : Nat → UpstreamResponse α) (e : McpError),
        (makeRequest apiKey endpoint params upstream).result = .error e →
        e ≠ (⟨.InvalidParams, ERROR_MESSAGES.MISSING_API_KEY⟩ : McpError)) := by
  refine ⟨rfl, ?_, ?_⟩
  · intro key hk
    simp [N2YOApiClient.construct, hk]
  · intro α apiKey endpoint params upstream e h
    have hc := makeRequestAux_error_code apiKey endpoint params upstream 0 e h
    rcases hc with hc | hc <;> (intro he; subst he; simp at hc)

/-- Upstream rejecting the credential on every attempt. -/
def reject401Upstream : Nat → UpstreamResponse TleEnvelope :=
  fun _ => .httpError 401 "Unauthorized"

/-- Witness for C8 at concrete credentials and a concrete per-call
error. -/
theorem construct_requires_credential_witness :
    N2YOApiClient.construct "VALID" = .ok ⟨"VALID"⟩
    ∧ (makeRequest "VALID" (tleEndpoint 25544) [] reject401Upstream).result
        = .error ⟨.InvalidRequest, ERROR_MESSAGES.INVALID_API_KEY⟩
    ∧ ((⟨.InvalidRequest, ERROR_MESSAGES.INVALID_API_KEY⟩ : McpError)
          == ⟨.InvalidParams, ERROR_MESSAGES.MISSING_API_KEY⟩) = false := by
  have hr : (makeRequest "VALID" (tleEndpoint 25544) [] reject401Upstream).result
      = .error ⟨.InvalidRequest, ERROR_MESSAGES.INVALID_API_KEY⟩ := by
    rw [makeRequest, makeRequestAux_401 rfl]
  refine ⟨construct_requires_credential.2.1 "VALID" (by decide), hr, by decide⟩

/-- C10: `getTLE` treats `info.satname` present-but-empty and
`info.transactionscount` present-but-zero exactly like absent fields
(JS `||` defaulting): the result is the synthesized
`"Satellite {noradId}"` name and count 0, identical to the
absent-`info` envelope; and every successful `getTLE` result carries
the caller-supplied `noradId` as `satid`, whatever the envelope held. -/
theorem tle_falsy_fields_as_absent :
    (∀ (apiKey : String) (noradId : Int) (tleStr : String)
        (u1 u2 : Nat → UpstreamResponse TleEnvelope),
      u1 0 = .success ⟨some ⟨some "", some 0⟩, tleStr⟩ →
      u2 0 = .success ⟨none, tleStr⟩ →
      (getTLE apiKey noradId u1).result = (getTLE apiKey noradId u2).result
      ∧ (getTLE apiKey noradId u1).result
          = .ok ⟨noradId, "Satellite " ++ toString noradId, 0, tleStr⟩)
    ∧ (∀ (apiKey : String) (noradId : Int)
        (u : Nat → UpstreamResponse TleEnvelope) (r : SatelliteTLE),
      (getTLE apiKey noradId u).result = .ok r → r.satid = noradId) := by
  constructor
  · intro apiKey noradId tleStr u1 u2 h1 h2
    have e1 := @makeRequestAux_success _ apiKey (tleEndpoint noradId) [] u1 0 _ h1
    have e2 := @makeRequestAux_success _ apiKey (tleEndpoint noradId) [] u2 0 _ h2
    constructor
    · simp [getTLE, makeRequest, e1, e2, Except.map, jsOrString, jsOrInt]
    · simp [getTLE, makeRequest, e1, Except.map, jsOrString, jsOrInt]
  · intro apiKey noradId u r h
    simp only [getTLE] at h
    rcases hm : (makeRequest apiKey (tleEndpoint noradId) [] u).result with e | env
    · rw [hm] at h; simp [Except.map] at h
    · rw [hm] at h
      simp only [Except.map, Except.ok.injEq] at h
      subst h
      rfl

/-- Upstream answering a TLE envelope with present-but-falsy `info`
fields. -/
def tleFalsyUpstream : Nat → UpstreamResponse TleEnvelope :=
  fun _ => .success ⟨some ⟨some "", some 0⟩, "LINE1\r\nLINE2"⟩

/-- Upstream answering a TLE envelope with `info` absent. -/
def tleAbsentUpstream : Nat → UpstreamResponse TleEnvelope :=
  fun _ => .success ⟨none, "LINE1\r\nLINE2"⟩

/-- Witness for C10 at `noradId = 25544`. -/
theorem tle_falsy_fields_as_absent_witness :
    (getTLE "K" 25544 tleFalsyUpstream).result
        = (getTLE "K" 25544 tleAbsentUpstream).result
    ∧ (getTLE "K" 25544 tleFalsyUpstream).result
        = .ok ⟨25544, "Satellite 25544", 0, "LINE1\r\nLINE2"⟩
    ∧ (⟨25544, "Satellite 25544", 0, "LINE1\r\nLINE2"⟩ : SatelliteTLE).satid
        = 25544 := by
  have h := tle_falsy_fields_as_absent.1 "K" 25544 "LINE1\r\nLINE2"
    tleFalsyUpstream tleAbsentUpstream rfl rfl
  have hfold : (getTLE "K" 25544 tleFalsyUpstream).result
      = .ok ⟨25544, "Satellite 25544", 0, "LINE1\r\nLINE2"⟩ := by
    rw [h.2]
    exact congrArg Except.ok (by decide)
  exact ⟨h.1, hfold,
    tle_falsy_fields_as_absent.2 "K" 25544 tleFalsyUpstream _ hfold⟩

end N2YO
